import Mathlib

/-!
Verification of the master/slave MQTT data-processing node.

Shallow embedding of the core of `src/common.rs` and `src/bin/slave.rs`:
the JSON value model (`serde_json::Value`), the flexible payload decoder
`convert_payload`, the variant processor branches, the metrics aggregator,
the response builder and the per-message processing step of the slave's
consumer loop.  Rust `f64` fields are embedded as exact rationals (the
decode logic only inspects shape, never rounds), `u32`/`u64`/`u8` as `Nat`
with explicit range checks where the code checks them, and `String` as
Lean `String` (both are Unicode with UTF-8 byte lengths).
-/

/-- Model of `serde_json::Value`: null, booleans, numbers, strings, arrays
and objects (an object is an association list with distinct keys, as
produced by `serde_json`'s map type). -/
inductive Json where
  | null
  | bool (b : Bool)
  | num (q : ℚ)
  | str (s : String)
  | arr (elems : List Json)
  | obj (fields : List (String × Json))

/-- `Map::get` on a JSON object: first binding for the key, if any. -/
def jsonLookup (m : List (String × Json)) (k : String) : Option Json :=
  match m with
  | [] => none
  | (k2, v) :: rest => if k2 = k then some v else jsonLookup rest k

/-- A UTC calendar datetime, the model of `chrono::DateTime<Utc>` at
second precision (the precision exercised by this repository). -/
structure DateTimeUtc where
  year : ℕ
  month : ℕ
  day : ℕ
  hour : ℕ
  minute : ℕ
  second : ℕ
deriving DecidableEq

/-- Field ranges accepted by the datetime model. -/
def validb (t : DateTimeUtc) : Bool :=
  decide (t.year < 10000) && decide (1 ≤ t.month) && decide (t.month ≤ 12) &&
    decide (1 ≤ t.day) && decide (t.day ≤ 31) && decide (t.hour < 24) &&
    decide (t.minute < 60) && decide (t.second < 60)

/-- The decimal digit character for `d < 10`. -/
def digitChar (d : ℕ) : Char := Char.ofNat (48 + d)

/-- Two-digit zero-padded rendering. -/
def pad2 (n : ℕ) : List Char := [digitChar (n / 10), digitChar (n % 10)]

/-- Four-digit zero-padded rendering. -/
def pad4 (n : ℕ) : List Char :=
  [digitChar (n / 1000), digitChar (n / 100 % 10), digitChar (n / 10 % 10), digitChar (n % 10)]

/-- Model of `chrono`'s `to_rfc3339` on a UTC datetime: the canonical
`YYYY-MM-DDTHH:MM:SS+00:00` form. -/
def toRfc3339 (t : DateTimeUtc) : String :=
  ⟨pad4 t.year ++ '-' :: pad2 t.month ++ '-' :: pad2 t.day ++ 'T' :: pad2 t.hour ++
    ':' :: pad2 t.minute ++ ':' :: pad2 t.second ++ ['+', '0', '0', ':', '0', '0']⟩

/-- Numeric value of a digit character. -/
def digitVal (c : Char) : ℕ := c.toNat - 48

/-- Value of a two-digit group. -/
def val2 (a b : Char) : ℕ := 10 * digitVal a + digitVal b

/-- Value of a four-digit group. -/
def val4 (a b c d : Char) : ℕ :=
  1000 * digitVal a + 100 * digitVal b + 10 * digitVal c + digitVal d

/-- Character-level RFC3339 parser (canonical UTC form), the model of
`chrono`'s RFC3339 parsing as used by `serde` for `DateTime<Utc>` fields. -/
def parseChars (l : List Char) : Option DateTimeUtc :=
  match l with
  | [y1, y2, y3, y4, s1, a1, a2, s2, b1, b2, s3, c1, c2, s4, d1, d2, s5, e1, e2,
     p1, p2, p3, p4, p5, p6] =>
    if y1.isDigit && y2.isDigit && y3.isDigit && y4.isDigit &&
        a1.isDigit && a2.isDigit && b1.isDigit && b2.isDigit &&
        c1.isDigit && c2.isDigit && d1.isDigit && d2.isDigit &&
        e1.isDigit && e2.isDigit &&
        (s1 == '-') && (s2 == '-') && (s3 == 'T') && (s4 == ':') && (s5 == ':') &&
        (p1 == '+') && (p2 == '0') && (p3 == '0') && (p4 == ':') && (p5 == '0') &&
        (p6 == '0') then
      let t : DateTimeUtc :=
        ⟨val4 y1 y2 y3 y4, val2 a1 a2, val2 b1 b2, val2 c1 c2, val2 d1 d2, val2 e1 e2⟩
      if validb t then some t else none
    else none
  | _ => none

/-- RFC3339 parsing of a string. -/
def parseRfc3339 (s : String) : Option DateTimeUtc := parseChars s.data

/-- Serial number of a datetime, used only to compare datetimes. -/
def dtSerial (t : DateTimeUtc) : ℕ :=
  ((((t.year * 13 + t.month) * 32 + t.day) * 24 + t.hour) * 60 + t.minute) * 60 + t.second

/-- Chronological order on the datetime model. -/
def dtLe (a b : DateTimeUtc) : Prop := dtSerial a ≤ dtSerial b

/-- `DataPayload` from `src/common.rs`: the closed six-case payload union. -/
inductive DataPayload where
  | Text (s : String)
  | Number (n : ℚ)
  | Coordinates (x y z : ℚ)
  | SensorData (sensor_id : String) (temperature humidity pressure : ℚ)
  | ImageData (width height : ℕ) (format : String) (data : List ℕ)
  | LogEntry (level message timestamp : String)
deriving DecidableEq

/-- serde's `Serialize` for `DataPayload` (externally tagged enum): a
single-tag object around the variant's own serialization. -/
def encodePayload (p : DataPayload) : Json :=
  match p with
  | .Text s => .obj [("Text", .str s)]
  | .Number n => .obj [("Number", .num n)]
  | .Coordinates x y z =>
      .obj [("Coordinates", .obj [("x", .num x), ("y", .num y), ("z", .num z)])]
  | .SensorData sid t u pr =>
      .obj [("SensorData", .obj [("sensor_id", .str sid), ("temperature", .num t),
        ("humidity", .num u), ("pressure", .num pr)])]
  | .ImageData w h f d =>
      .obj [("ImageData", .obj [("width", .num w), ("height", .num h),
        ("format", .str f), ("data", .arr (d.map fun b => .num b))])]
  | .LogEntry lv msg ts =>
      .obj [("LogEntry", .obj [("level", .str lv), ("message", .str msg),
        ("timestamp", .str ts)])]

/-- serde deserialization of an `f64` field: any JSON number. -/
def asF64 (v : Json) : Option ℚ :=
  match v with
  | .num q => some q
  | _ => none

/-- serde deserialization of a `u32` field: an integer number in range. -/
def asU32 (v : Json) : Option ℕ :=
  match v with
  | .num q => if q.den = 1 ∧ 0 ≤ q.num ∧ q.num < 4294967296 then some q.num.toNat else none
  | _ => none

/-- serde deserialization of a `u8` (byte) element. -/
def asU8 (v : Json) : Option ℕ :=
  match v with
  | .num q => if q.den = 1 ∧ 0 ≤ q.num ∧ q.num < 256 then some q.num.toNat else none
  | _ => none

/-- serde deserialization of a `String` field. -/
def asString (v : Json) : Option String :=
  match v with
  | .str s => some s
  | _ => none

/-- serde deserialization of a `Vec<u8>` field: an array of bytes. -/
def asBytes (v : Json) : Option (List ℕ) :=
  match v with
  | .arr xs => xs.mapM asU8
  | _ => none

/-- The helper struct `ImageData` in `slave.rs` (derive(Deserialize)). -/
structure ImageDataRec where
  width : ℕ
  height : ℕ
  format : String
  data : List ℕ

/-- The helper struct `SensorData` in `slave.rs`. -/
structure SensorDataRec where
  sensor_id : String
  temperature : ℚ
  humidity : ℚ
  pressure : ℚ

/-- The helper struct `Coordinates` in `slave.rs`. -/
structure CoordinatesRec where
  x : ℚ
  y : ℚ
  z : ℚ

/-- The helper struct `LogEntry` in `slave.rs`; note `timestamp` is a
`DateTime<Utc>`, parsed strictly. -/
structure LogEntryRec where
  level : String
  message : String
  timestamp : DateTimeUtc

/-- `serde_json::from_value::<ImageData>`: missing or mistyped fields fail,
unknown extra fields are tolerated (serde default behaviour). -/
def decodeImageData (v : Json) : Option ImageDataRec :=
  match v with
  | .obj m => do
      let w ← (jsonLookup m "width").bind asU32
      let h ← (jsonLookup m "height").bind asU32
      let f ← (jsonLookup m "format").bind asString
      let d ← (jsonLookup m "data").bind asBytes
      some ⟨w, h, f, d⟩
  | _ => none

/-- `serde_json::from_value::<SensorData>`. -/
def decodeSensorData (v : Json) : Option SensorDataRec :=
  match v with
  | .obj m => do
      let sid ← (jsonLookup m "sensor_id").bind asString
      let t ← (jsonLookup m "temperature").bind asF64
      let u ← (jsonLookup m "humidity").bind asF64
      let pr ← (jsonLookup m "pressure").bind asF64
      some ⟨sid, t, u, pr⟩
  | _ => none

/-- `serde_json::from_value::<Coordinates>`. -/
def decodeCoordinates (v : Json) : Option CoordinatesRec :=
  match v with
  | .obj m => do
      let x ← (jsonLookup m "x").bind asF64
      let y ← (jsonLookup m "y").bind asF64
      let z ← (jsonLookup m "z").bind asF64
      some ⟨x, y, z⟩
  | _ => none

/-- `serde_json::from_value::<LogEntry>`: the `timestamp` string must be a
well-formed RFC3339 datetime. -/
def decodeLogEntry (v : Json) : Option LogEntryRec :=
  match v with
  | .obj m => do
      let lv ← (jsonLookup m "level").bind asString
      let msg ← (jsonLookup m "message").bind asString
      let tsv ← jsonLookup m "timestamp"
      let tss ← asString tsv
      let ts ← parseRfc3339 tss
      some ⟨lv, msg, ts⟩
  | _ => none

/-- The `Text` attempt of `convert_payload`: key "Text" present and its
value a string (`as_str`), else fall through. -/
def tryText (m : List (String × Json)) : Option DataPayload :=
  match jsonLookup m "Text" with
  | some (Json.str s) => some (DataPayload.Text s)
  | _ => none

/-- The `ImageData` attempt of `convert_payload`. -/
def tryImage (m : List (String × Json)) : Option DataPayload :=
  (jsonLookup m "ImageData").bind fun v =>
    (decodeImageData v).map fun r => DataPayload.ImageData r.width r.height r.format r.data

/-- The `SensorData` attempt of `convert_payload`. -/
def trySensor (m : List (String × Json)) : Option DataPayload :=
  (jsonLookup m "SensorData").bind fun v =>
    (decodeSensorData v).map fun r =>
      DataPayload.SensorData r.sensor_id r.temperature r.humidity r.pressure

/-- The `Coordinates` attempt of `convert_payload`. -/
def tryCoord (m : List (String × Json)) : Option DataPayload :=
  (jsonLookup m "Coordinates").bind fun v =>
    (decodeCoordinates v).map fun r => DataPayload.Coordinates r.x r.y r.z

/-- The `LogEntry` attempt of `convert_payload`; the decoded `DateTime` is
re-rendered with `to_rfc3339`, exactly as the source does. -/
def tryLog (m : List (String × Json)) : Option DataPayload :=
  (jsonLookup m "LogEntry").bind fun v =>
    (decodeLogEntry v).map fun r => DataPayload.LogEntry r.level r.message (toRfc3339 r.timestamp)

/-- `convert_payload` from `slave.rs`: on an object, try the five tags
"Text", "ImageData", "SensorData", "Coordinates", "LogEntry" in that order,
returning the first success (each failed attempt falls through); `None`
otherwise.  The source never checks a "Number" tag. -/
def convert_payload (value : Json) : Option DataPayload :=
  match value with
  | Json.obj m =>
    match tryText m with
    | some v => some v
    | none =>
      match tryImage m with
      | some v => some v
      | none =>
        match trySensor m with
        | some v => some v
        | none =>
          match tryCoord m with
          | some v => some v
          | none => tryLog m
  | _ => none

/-- The decoder attempted at position `k` of the fixed priority order. -/
def decodeAtNat (k : ℕ) (m : List (String × Json)) : Option DataPayload :=
  match k with
  | 0 => tryText m
  | 1 => tryImage m
  | 2 => trySensor m
  | 3 => tryCoord m
  | 4 => tryLog m
  | _ + 5 => none

/-- The recognized tag name at position `k` of the fixed priority order. -/
def tagName (k : ℕ) : String :=
  match k with
  | 0 => "Text"
  | 1 => "ImageData"
  | 2 => "SensorData"
  | 3 => "Coordinates"
  | 4 => "LogEntry"
  | _ + 5 => ""

/-- The ordered list of decode attempts `convert_payload` makes. -/
def decoderChain (m : List (String × Json)) : List (Option DataPayload) :=
  [tryText m, tryImage m, trySensor m, tryCoord m, tryLog m]

/-- First successful attempt in a list of decode attempts. -/
def firstSome (l : List (Option DataPayload)) : Option DataPayload :=
  match l with
  | [] => none
  | o :: t =>
    match o with
    | some v => some v
    | none => firstSome t

/-- The `Text` branch of `process_data` in `slave.rs`:
`format!("Text processed: {} chars", text.len())`; Rust's `String::len` is
the UTF-8 byte length, embedded as `String.utf8ByteSize`. -/
def process_text (s : String) : String :=
  "Text processed: " ++ toString s.utf8ByteSize ++ " chars"

/-- The hundredths value rounded to an integer: `⌊q * 100 + 1 / 2⌋`,
computed on the numerator and denominator directly.  For values whose
hundredths are exact — the only ones the claims evaluate — this agrees
with Rust's `{:.2}` rounding. -/
def cents2 (q : ℚ) : ℤ :=
  Int.ediv (200 * q.num + (q.den : ℤ)) (2 * (q.den : ℤ))

/-- Rust's `{:.2}` fixed-point formatting, on exact rationals. -/
def format2 (q : ℚ) : String :=
  (if cents2 q < 0 then "-" else "") ++ toString ((cents2 q).natAbs / 100) ++ "." ++
    (if (cents2 q).natAbs % 100 < 10 then "0" else "") ++ toString ((cents2 q).natAbs % 100)

/-- The distance computed by the `Coordinates` branch of `process_data`:
`(x * x + y * y + z * z).sqrt()`, with `f64` embedded as exact reals. -/
noncomputable def coordDistance (x y z : ℝ) : ℝ := Real.sqrt (x * x + y * y + z * z)

/-- The result string of the `Coordinates` branch of `process_data`, for a
distance value exactly representable as a rational. -/
def coordResult (q : ℚ) : String :=
  "Coordinates processed: distance from origin = " ++ format2 q

/-- `ProcessingMetrics` from `slave.rs`: the `AtomicU64` counters, embedded
as plain naturals (each atomic `fetch_add` becomes one indivisible
operation of the interleaving model below). -/
structure ProcessingMetrics where
  processed_count : ℕ
  total_processing_time : ℕ
  text_count : ℕ
  number_count : ℕ
  coordinates_count : ℕ
  sensor_count : ℕ
  image_count : ℕ
  log_count : ℕ
deriving DecidableEq

/-- `ProcessingMetrics::new()`: all counters start at zero. -/
def ProcessingMetrics.new : ProcessingMetrics := ⟨0, 0, 0, 0, 0, 0, 0, 0⟩

/-- `ProcessingMetrics::update_count`: bump the counter of the payload's
variant. -/
def update_count (m : ProcessingMetrics) (p : DataPayload) : ProcessingMetrics :=
  match p with
  | .Text _ => { m with text_count := m.text_count + 1 }
  | .Number _ => { m with number_count := m.number_count + 1 }
  | .Coordinates _ _ _ => { m with coordinates_count := m.coordinates_count + 1 }
  | .SensorData _ _ _ _ => { m with sensor_count := m.sensor_count + 1 }
  | .ImageData _ _ _ _ => { m with image_count := m.image_count + 1 }
  | .LogEntry _ _ _ => { m with log_count := m.log_count + 1 }

/-- The six payload variant kinds, naming the per-variant counters. -/
inductive VariantKind where
  | text
  | number
  | coordinates
  | sensor
  | image
  | log
deriving DecidableEq

/-- The per-variant counter selected by a kind. -/
def variantCounter (k : VariantKind) (m : ProcessingMetrics) : ℕ :=
  match k with
  | .text => m.text_count
  | .number => m.number_count
  | .coordinates => m.coordinates_count
  | .sensor => m.sensor_count
  | .image => m.image_count
  | .log => m.log_count

/-- One atomic `fetch_add` on the metrics, the indivisible unit of the
concurrency model: `AtomicU64::fetch_add` never loses an update, so a
concurrent execution is an arbitrary interleaving of these operations. -/
inductive MetricOp where
  | incProcessed
  | addTime (ms : ℕ)
  | incVariant (k : VariantKind)
deriving DecidableEq

/-- Effect of one atomic operation on the metrics state. -/
def applyOp (m : ProcessingMetrics) (op : MetricOp) : ProcessingMetrics :=
  match op with
  | .incProcessed => { m with processed_count := m.processed_count + 1 }
  | .addTime ms => { m with total_processing_time := m.total_processing_time + ms }
  | .incVariant .text => { m with text_count := m.text_count + 1 }
  | .incVariant .number => { m with number_count := m.number_count + 1 }
  | .incVariant .coordinates => { m with coordinates_count := m.coordinates_count + 1 }
  | .incVariant .sensor => { m with sensor_count := m.sensor_count + 1 }
  | .incVariant .image => { m with image_count := m.image_count + 1 }
  | .incVariant .log => { m with log_count := m.log_count + 1 }

/-- The three atomic operations one `record` invocation performs, in
source order: `processed_count.fetch_add(1)`, `update_count`, and
`total_processing_time.fetch_add(elapsed_ms)`. -/
def recordOps (c : VariantKind × ℕ) : List MetricOp :=
  [MetricOp.incProcessed, MetricOp.incVariant c.1, MetricOp.addTime c.2]

/-- All atomic operations of a list of `record` invocations. -/
def opsOfCalls (calls : List (VariantKind × ℕ)) : List MetricOp :=
  match calls with
  | [] => []
  | c :: t => recordOps c ++ opsOfCalls t

/-- Recognizer for the total-processed increment. -/
def isIncProcessed (op : MetricOp) : Bool :=
  match op with
  | .incProcessed => true
  | _ => false

/-- Recognizer for the increment of kind `k`'s counter. -/
def isIncVariant (k : VariantKind) (op : MetricOp) : Bool :=
  match op with
  | .incVariant k2 => decide (k2 = k)
  | _ => false

/-- Milliseconds contributed by an operation to the cumulative time. -/
def timeOf (op : MetricOp) : ℕ :=
  match op with
  | .addTime ms => ms
  | _ => 0

/-- The `Metadata` struct of `FlexiblePacket` in `slave.rs`
(both fields `#[serde(default)]`). -/
structure MetadataRec where
  source : String
  version : String

/-- `FlexiblePacket` from `slave.rs`: required `id` and `payload`,
optional defaulted `timestamp`, `data_type` and `metadata`. -/
structure FlexiblePacket where
  id : String
  timestamp : Option DateTimeUtc
  data_type : Option String
  payload : Json
  metadata : Option MetadataRec

/-- serde decode of an `Option<String>` field with `#[serde(default)]`:
missing or null gives `None`, a string gives `Some`, anything else fails. -/
def asOptString (o : Option Json) : Option (Option String) :=
  match o with
  | none => some none
  | some Json.null => some none
  | some (Json.str s) => some (some s)
  | some _ => none

/-- serde decode of an `Option<DateTime<Utc>>` field with
`#[serde(default)]`. -/
def asOptDateTime (o : Option Json) : Option (Option DateTimeUtc) :=
  match o with
  | none => some none
  | some Json.null => some none
  | some (Json.str s) => (parseRfc3339 s).map some
  | some _ => none

/-- serde decode of the `Metadata` struct: each `String` field defaults to
the empty string when missing. -/
def decodeMetadata (v : Json) : Option MetadataRec :=
  match v with
  | .obj m => do
      let s ← match jsonLookup m "source" with
        | none => some ""
        | some (Json.str s) => some s
        | some _ => none
      let ver ← match jsonLookup m "version" with
        | none => some ""
        | some (Json.str s) => some s
        | some _ => none
      some ⟨s, ver⟩
  | _ => none

/-- serde decode of the `Option<Metadata>` field with `#[serde(default)]`. -/
def asOptMetadata (o : Option Json) : Option (Option MetadataRec) :=
  match o with
  | none => some none
  | some Json.null => some none
  | some v => (decodeMetadata v).map some

/-- `serde_json::from_str::<FlexiblePacket>` on an already-lexed JSON
value: the structural envelope parse of the slave's consumer loop. -/
def parseFlexiblePacket (j : Json) : Option FlexiblePacket :=
  match j with
  | .obj m => do
      let id ← (jsonLookup m "id").bind asString
      let ts ← asOptDateTime (jsonLookup m "timestamp")
      let dt ← asOptString (jsonLookup m "data_type")
      let pl ← jsonLookup m "payload"
      let md ← asOptMetadata (jsonLookup m "metadata")
      some ⟨id, ts, dt, pl, md⟩
  | _ => none

/-- `DataResponse` from `src/common.rs`: the outbound envelope; every
field is required. -/
structure DataResponse where
  packet_id : String
  received_at : String
  status : String
  processing_time_ms : ℕ
deriving DecidableEq

/-- The response construction in the slave's consumer loop:
`DataResponse { packet_id, received_at: Utc::now().to_rfc3339(), status,
processing_time_ms }`, with the clock reading passed as `now`. -/
def buildResponse (packetId : String) (now : DateTimeUtc) (status : String)
    (elapsedMs : ℕ) : DataResponse :=
  ⟨packetId, toRfc3339 now, status, elapsedMs⟩

/-- One iteration of the slave's consumer loop on one inbound message.
`inbound = none` models raw bytes that are not JSON text at all; a `some`
value then goes through the `FlexiblePacket` parse and `convert_payload`.
On either failure the message is dropped (after a diagnostic print, outside
the model): the metrics are untouched and no response is produced.  On
success the metrics are updated exactly as the source does and the
response is built.  The processing function, elapsed time and clock are
parameters. -/
def handleMessage (proc : DataPayload → String) (elapsedMs : ℕ) (now : DateTimeUtc)
    (metrics : ProcessingMetrics) (inbound : Option Json) :
    ProcessingMetrics × Option DataResponse :=
  match inbound with
  | none => (metrics, none)
  | some j =>
    match parseFlexiblePacket j with
    | none => (metrics, none)
    | some packet =>
      match convert_payload packet.payload with
      | none => (metrics, none)
      | some dp =>
        let m1 := { metrics with processed_count := metrics.processed_count + 1 }
        let m2 := update_count m1 dp
        let m3 := { m2 with total_processing_time := m2.total_processing_time + elapsedMs }
        (m3, some (buildResponse packet.id now (proc dp) elapsedMs))

/-- Sum of the six per-variant counters. -/
def sumVariantCounts (m : ProcessingMetrics) : ℕ :=
  m.text_count + m.number_count + m.coordinates_count + m.sensor_count +
    m.image_count + m.log_count

/-- Componentwise order on metrics states: no counter ever decreases. -/
def metricsLe (a b : ProcessingMetrics) : Prop :=
  a.processed_count ≤ b.processed_count ∧
  a.total_processing_time ≤ b.total_processing_time ∧
  a.text_count ≤ b.text_count ∧
  a.number_count ≤ b.number_count ∧
  a.coordinates_count ≤ b.coordinates_count ∧
  a.sensor_count ≤ b.sensor_count ∧
  a.image_count ≤ b.image_count ∧
  a.log_count ≤ b.log_count

theorem convert_payload_obj (m : List (String × Json)) :
    convert_payload (Json.obj m) = firstSome (decoderChain m) := by
  simp only [decoderChain]
  cases h0 : tryText m <;> cases h1 : tryImage m <;> cases h2 : trySensor m <;>
    cases h3 : tryCoord m <;> cases h4 : tryLog m <;>
      simp [convert_payload, firstSome, h0, h1, h2, h3, h4]

theorem decoderChain_getD (m : List (String × Json)) (k : ℕ) (h : k < 5) :
    (decoderChain m).getD k none = decodeAtNat k m := by
  match k with
  | 0 => rfl
  | 1 => rfl
  | 2 => rfl
  | 3 => rfl
  | 4 => rfl
  | n + 5 => omega

theorem decode_none_of_lookup_none (m : List (String × Json)) (k : ℕ)
    (h : jsonLookup m (tagName k) = none) : decodeAtNat k m = none := by
  match k with
  | 0 => simp only [tagName] at h; simp [decodeAtNat, tryText, h]
  | 1 => simp only [tagName] at h; simp [decodeAtNat, tryImage, h]
  | 2 => simp only [tagName] at h; simp [decodeAtNat, trySensor, h]
  | 3 => simp only [tagName] at h; simp [decodeAtNat, tryCoord, h]
  | 4 => simp only [tagName] at h; simp [decodeAtNat, tryLog, h]
  | n + 5 => rfl

theorem firstSome_eq_of (l : List (Option DataPayload)) :
    ∀ (i : ℕ) (v : DataPayload), (∀ k, k < i → l.getD k none = none) →
      l.getD i none = some v → firstSome l = some v := by
  induction l with
  | nil => intro i v _ h2; simp [List.getD] at h2
  | cons o t ih =>
    intro i v h1 h2
    match i with
    | 0 =>
      simp only [List.getD_cons_zero] at h2
      simp [firstSome, h2]
    | i + 1 =>
      have h0 : o = none := by
        have := h1 0 (Nat.succ_pos _)
        simpa using this
      subst h0
      simp only [firstSome]
      exact ih i v (fun k hk => by simpa using h1 (k + 1) (by omega)) (by simpa using h2)

theorem firstSome_none (l : List (Option DataPayload)) (h : ∀ o ∈ l, o = none) :
    firstSome l = none := by
  induction l with
  | nil => rfl
  | cons o t ih =>
    have h0 : o = none := h o (by simp)
    subst h0
    simp only [firstSome]
    exact ih fun o ho => h o (by simp [ho])

theorem digitChar_isDigit : ∀ d, d < 10 → (digitChar d).isDigit = true := by decide

theorem digitVal_digitChar : ∀ d, d < 10 → digitVal (digitChar d) = d := by decide

theorem parse_toRfc3339 (t : DateTimeUtc) (h : validb t = true) :
    parseRfc3339 (toRfc3339 t) = some t := by
  obtain ⟨y, mo, d, hr, mi, se⟩ := t
  simp only [validb, Bool.and_eq_true, decide_eq_true_eq, and_assoc] at h
  obtain ⟨hy, hmo1, hmo2, hd1, hd2, hh, hmi, hse⟩ := h
  have e : (toRfc3339 ⟨y, mo, d, hr, mi, se⟩).data =
      [digitChar (y / 1000), digitChar (y / 100 % 10), digitChar (y / 10 % 10),
       digitChar (y % 10), '-', digitChar (mo / 10), digitChar (mo % 10),
       '-', digitChar (d / 10), digitChar (d % 10),
       'T', digitChar (hr / 10), digitChar (hr % 10),
       ':', digitChar (mi / 10), digitChar (mi % 10),
       ':', digitChar (se / 10), digitChar (se % 10),
       '+', '0', '0', ':', '0', '0'] := rfl
  have g1 : (digitChar (y / 1000)).isDigit = true := digitChar_isDigit _ (by omega)
  have g2 : (digitChar (y / 100 % 10)).isDigit = true := digitChar_isDigit _ (by omega)
  have g3 : (digitChar (y / 10 % 10)).isDigit = true := digitChar_isDigit _ (by omega)
  have g4 : (digitChar (y % 10)).isDigit = true := digitChar_isDigit _ (by omega)
  have g5 : (digitChar (mo / 10)).isDigit = true := digitChar_isDigit _ (by omega)
  have g6 : (digitChar (mo % 10)).isDigit = true := digitChar_isDigit _ (by omega)
  have g7 : (digitChar (d / 10)).isDigit = true := digitChar_isDigit _ (by omega)
  have g8 : (digitChar (d % 10)).isDigit = true := digitChar_isDigit _ (by omega)
  have g9 : (digitChar (hr / 10)).isDigit = true := digitChar_isDigit _ (by omega)
  have g10 : (digitChar (hr % 10)).isDigit = true := digitChar_isDigit _ (by omega)
  have g11 : (digitChar (mi / 10)).isDigit = true := digitChar_isDigit _ (by omega)
  have g12 : (digitChar (mi % 10)).isDigit = true := digitChar_isDigit _ (by omega)
  have g13 : (digitChar (se / 10)).isDigit = true := digitChar_isDigit _ (by omega)
  have g14 : (digitChar (se % 10)).isDigit = true := digitChar_isDigit _ (by omega)
  have hv4 : val4 (digitChar (y / 1000)) (digitChar (y / 100 % 10))
      (digitChar (y / 10 % 10)) (digitChar (y % 10)) = y := by
    rw [val4, digitVal_digitChar _ (by omega), digitVal_digitChar _ (by omega),
        digitVal_digitChar _ (by omega), digitVal_digitChar _ (by omega)]
    omega
  have hvmo : val2 (digitChar (mo / 10)) (digitChar (mo % 10)) = mo := by
    rw [val2, digitVal_digitChar _ (by omega), digitVal_digitChar _ (by omega)]; omega
  have hvd : val2 (digitChar (d / 10)) (digitChar (d % 10)) = d := by
    rw [val2, digitVal_digitChar _ (by omega), digitVal_digitChar _ (by omega)]; omega
  have hvh : val2 (digitChar (hr / 10)) (digitChar (hr % 10)) = hr := by
    rw [val2, digitVal_digitChar _ (by omega), digitVal_digitChar _ (by omega)]; omega
  have hvmi : val2 (digitChar (mi / 10)) (digitChar (mi % 10)) = mi := by
    rw [val2, digitVal_digitChar _ (by omega), digitVal_digitChar _ (by omega)]; omega
  have hvse : val2 (digitChar (se / 10)) (digitChar (se % 10)) = se := by
    rw [val2, digitVal_digitChar _ (by omega), digitVal_digitChar _ (by omega)]; omega
  have hvb : validb ⟨y, mo, d, hr, mi, se⟩ = true := by
    simp only [validb, Bool.and_eq_true, decide_eq_true_eq, and_assoc]
    omega
  simp only [parseRfc3339, e, parseChars, g1, g2, g3, g4, g5, g6, g7, g8, g9, g10,
    g11, g12, g13, g14, beq_self_eq_true, Bool.and_self, Bool.true_and, Bool.and_true,
    if_true, hv4, hvmo, hvd, hvh, hvmi, hvse, hvb]

theorem foldl_processed (l : List MetricOp) :
    ∀ m, (l.foldl applyOp m).processed_count = m.processed_count + l.countP isIncProcessed := by
  induction l with
  | nil => intro m; simp
  | cons op t ih =>
    intro m
    rw [List.foldl_cons, ih, List.countP_cons]
    cases op with
    | incProcessed => simp [applyOp, isIncProcessed]; omega
    | addTime ms => simp [applyOp, isIncProcessed]
    | incVariant k => cases k <;> simp [applyOp, isIncProcessed]

theorem foldl_variant (k : VariantKind) (l : List MetricOp) :
    ∀ m, variantCounter k (l.foldl applyOp m)
      = variantCounter k m + l.countP (isIncVariant k) := by
  induction l with
  | nil => intro m; simp
  | cons op t ih =>
    intro m
    rw [List.foldl_cons, ih, List.countP_cons]
    cases op with
    | incProcessed => cases k <;> simp [applyOp, isIncVariant, variantCounter]
    | addTime ms => cases k <;> simp [applyOp, isIncVariant, variantCounter]
    | incVariant k2 =>
      cases k2 <;> cases k <;> simp [applyOp, isIncVariant, variantCounter] <;> omega

theorem foldl_time (l : List MetricOp) :
    ∀ m, (l.foldl applyOp m).total_processing_time
      = m.total_processing_time + (l.map timeOf).sum := by
  induction l with
  | nil => intro m; simp
  | cons op t ih =>
    intro m
    rw [List.foldl_cons, ih]
    cases op with
    | incProcessed => simp [applyOp, timeOf]
    | addTime ms => simp [applyOp, timeOf]; omega
    | incVariant k => cases k <;> simp [applyOp, timeOf]

theorem countP_opsOfCalls_inc (calls : List (VariantKind × ℕ)) :
    (opsOfCalls calls).countP isIncProcessed = calls.length := by
  induction calls with
  | nil => rfl
  | cons c t ih =>
    simp [opsOfCalls, List.countP_append, recordOps, List.countP_cons, isIncProcessed, ih]

theorem countP_opsOfCalls_variant (k : VariantKind) (calls : List (VariantKind × ℕ)) :
    (opsOfCalls calls).countP (isIncVariant k)
      = (calls.filter (fun c => decide (c.1 = k))).length := by
  induction calls with
  | nil => rfl
  | cons c t ih =>
    by_cases hc : c.1 = k
    · simp [opsOfCalls, List.countP_append, recordOps, List.countP_cons, isIncVariant,
        List.filter_cons, hc, ih]
    · simp [opsOfCalls, List.countP_append, recordOps, List.countP_cons, isIncVariant,
        List.filter_cons, hc, ih]

theorem sum_opsOfCalls_time (calls : List (VariantKind × ℕ)) :
    ((opsOfCalls calls).map timeOf).sum = (calls.map (fun c => c.2)).sum := by
  induction calls with
  | nil => rfl
  | cons c t ih => simp [opsOfCalls, recordOps, timeOf, ih]

/-- C1: the claim says all six `DataPayload` variants round-trip through
`convert_payload`, including `Number`; the code violates this.  Serializing
`Number(42.0)` gives the well-formed single-tag envelope payload
`{"Number": 42.0}`, but `convert_payload` never checks a "Number" tag and
returns `None`, so the message is dropped.  (The slave's `number_count`
metric and the `Number` branch of `process_data` are consequently
unreachable, which shows the intent was to handle it.) -/
theorem number_roundtrip_fails :
    encodePayload (DataPayload.Number 42) = Json.obj [("Number", Json.num 42)] ∧
    convert_payload (encodePayload (DataPayload.Number 42)) = none :=
  ⟨rfl, rfl⟩

/-- C2: for a payload mapping containing exactly two recognized tags, at
positions `i < j` of the fixed priority order Text, ImageData, SensorData,
Coordinates, LogEntry, both structurally valid, `convert_payload`
deterministically returns the variant decoded at the earlier position. -/
theorem priority_earlier_tag_wins (m : List (String × Json)) (i j : ℕ)
    (hij : i < j) (hj : j < 5)
    (honly : ∀ k, k < 5 → k ≠ i → k ≠ j → jsonLookup m (tagName k) = none)
    (vi : DataPayload) (hi : decodeAtNat i m = some vi)
    (_hjv : (decodeAtNat j m).isSome = true) :
    convert_payload (Json.obj m) = some vi := by
  rw [convert_payload_obj]
  apply firstSome_eq_of _ i vi
  · intro k hk
    rw [decoderChain_getD m k (by omega)]
    exact decode_none_of_lookup_none m k (honly k (by omega) (by omega) (by omega))
  · rw [decoderChain_getD m i (by omega)]
    exact hi

theorem priority_earlier_tag_wins_witness :
    decodeAtNat 0 [("Text", Json.str "a"),
      ("Coordinates", Json.obj [("x", Json.num 1), ("y", Json.num 2), ("z", Json.num 3)])]
      = some (DataPayload.Text "a") ∧
    (decodeAtNat 3 [("Text", Json.str "a"),
      ("Coordinates", Json.obj [("x", Json.num 1), ("y", Json.num 2), ("z", Json.num 3)])]).isSome
      = true ∧
    convert_payload (Json.obj [("Text", Json.str "a"),
      ("Coordinates", Json.obj [("x", Json.num 1), ("y", Json.num 2), ("z", Json.num 3)])])
      = some (DataPayload.Text "a") :=
  ⟨rfl, rfl,
    priority_earlier_tag_wins _ 0 3 (by omega) (by omega)
      (by
        intro k hk h1 h2
        interval_cases k
        · exact absurd rfl h1
        · rfl
        · rfl
        · exact absurd rfl h2
        · rfl)
      _ rfl rfl⟩

/-- C3: for a payload mapping containing exactly two recognized tags at
positions `i < j`, where the earlier tag is present but its value fails its
strict structural decode and the later tag's value is valid,
`convert_payload` returns the variant of the later tag instead of failing
the whole decode. -/
theorem fallback_later_tag_valid_wins (m : List (String × Json)) (i j : ℕ)
    (hij : i < j) (hj : j < 5)
    (honly : ∀ k, k < 5 → k ≠ i → k ≠ j → jsonLookup m (tagName k) = none)
    (vraw : Json) (hpresent : jsonLookup m (tagName i) = some vraw)
    (hfail : decodeAtNat i m = none)
    (w : DataPayload) (hw : decodeAtNat j m = some w) :
    convert_payload (Json.obj m) = some w := by
  rw [convert_payload_obj]
  apply firstSome_eq_of _ j w
  · intro k hk
    rw [decoderChain_getD m k (by omega)]
    by_cases hki : k = i
    · subst hki; exact hfail
    · exact decode_none_of_lookup_none m k (honly k (by omega) hki (by omega))
  · rw [decoderChain_getD m j (by omega)]
    exact hw

theorem fallback_later_tag_valid_wins_witness :
    jsonLookup [("Text", Json.num 7),
      ("SensorData", Json.obj [("sensor_id", Json.str "S1"), ("temperature", Json.num 20),
        ("humidity", Json.num 30), ("pressure", Json.num 1000)])] (tagName 0)
      = some (Json.num 7) ∧
    decodeAtNat 0 [("Text", Json.num 7),
      ("SensorData", Json.obj [("sensor_id", Json.str "S1"), ("temperature", Json.num 20),
        ("humidity", Json.num 30), ("pressure", Json.num 1000)])] = none ∧
    convert_payload (Json.obj [("Text", Json.num 7),
      ("SensorData", Json.obj [("sensor_id", Json.str "S1"), ("temperature", Json.num 20),
        ("humidity", Json.num 30), ("pressure", Json.num 1000)])])
      = some (DataPayload.SensorData "S1" 20 30 1000) :=
  ⟨rfl, rfl,
    fallback_later_tag_valid_wins
      [("Text", Json.num 7),
       ("SensorData", Json.obj [("sensor_id", Json.str "S1"), ("temperature", Json.num 20),
         ("humidity", Json.num 30), ("pressure", Json.num 1000)])] 0 2 (by omega) (by omega)
      (by
        intro k hk h1 h2
        interval_cases k
        · exact absurd rfl h1
        · rfl
        · exact absurd rfl h2
        · rfl
        · rfl)
      (Json.num 7) rfl rfl _ rfl⟩

/-- C4: `convert_payload` on an empty mapping, or on a mapping containing
none of the five recognized tag names, returns `None` (the NotRecognized
outcome); the decoder is a total function, so no error or panic is
possible. -/
theorem unrecognized_payload_not_recognized (m : List (String × Json))
    (h : m = [] ∨ ∀ k, k < 5 → jsonLookup m (tagName k) = none) :
    convert_payload (Json.obj m) = none := by
  have h5 : ∀ k, k < 5 → jsonLookup m (tagName k) = none := by
    rcases h with h | h
    · subst h; intro k _; rfl
    · exact h
  rw [convert_payload_obj]
  apply firstSome_none
  intro o ho
  simp only [decoderChain, List.mem_cons, List.not_mem_nil, or_false] at ho
  rcases ho with rfl | rfl | rfl | rfl | rfl
  · exact decode_none_of_lookup_none m 0 (h5 0 (by omega))
  · exact decode_none_of_lookup_none m 1 (h5 1 (by omega))
  · exact decode_none_of_lookup_none m 2 (h5 2 (by omega))
  · exact decode_none_of_lookup_none m 3 (h5 3 (by omega))
  · exact decode_none_of_lookup_none m 4 (h5 4 (by omega))

theorem unrecognized_payload_not_recognized_witness :
    convert_payload (Json.obj []) = none ∧
    convert_payload (Json.obj [("foo", Json.num 1)]) = none :=
  ⟨unrecognized_payload_not_recognized [] (Or.inl rfl),
    unrecognized_payload_not_recognized [("foo", Json.num 1)]
      (Or.inr (by intro k hk; interval_cases k <;> rfl))⟩

/-- C5 counterexample: the claim says `process(Text(s))` states the
character count of `s` for every string; the code uses `text.len()`, the
UTF-8 byte length.  On the one-character string "é" (two UTF-8 bytes) the
result states 2, not the character count 1. -/
theorem text_char_count_counterexample :
    process_text "é" = "Text processed: 2 chars" ∧
    String.length "é" = 1 ∧
    process_text "é" ≠ "Text processed: " ++ toString (String.length "é") ++ " chars" := by
  refine ⟨rfl, rfl, ?_⟩
  decide

/-- C5 amended: `process(Text(s))` states the UTF-8 byte length of `s`
(which coincides with the character count exactly on ASCII strings such as
"hello"); in particular `process(Text("hello"))` states 5, which is also
its character count. -/
theorem text_byte_count_correct :
    (∀ s : String, process_text s = "Text processed: " ++ toString s.utf8ByteSize ++ " chars") ∧
    process_text "hello" = "Text processed: 5 chars" ∧
    String.length "hello" = 5 ∧
    String.utf8ByteSize "hello" = 5 :=
  ⟨fun _ => rfl, rfl, rfl, rfl⟩

/-- C7: the `Coordinates` branch computes the Euclidean distance from the
origin `√(x² + y² + z²)` (with `f64` embedded as exact reals), and at
`x = 3, y = 4, z = 0` the distance is exactly 5, whose two-decimal
rendering in the result string is "5.00". -/
theorem coordinates_distance_correct :
    (∀ x y z : ℝ, coordDistance x y z = Real.sqrt (x ^ 2 + y ^ 2 + z ^ 2)) ∧
    coordDistance 3 4 0 = ((5 : ℚ) : ℝ) ∧
    coordResult 5 = "Coordinates processed: distance from origin = 5.00" := by
  refine ⟨?_, ?_, ?_⟩
  · intro x y z
    simp only [coordDistance]
    congr 1
    ring
  · simp only [coordDistance]
    rw [show ((3 : ℝ) * 3 + 4 * 4 + 0 * 0) = 5 ^ 2 by norm_num]
    rw [Real.sqrt_sq (by norm_num)]
    norm_num
  · rfl

/-- C8: building a response from packet id "abc", result "ok" and elapsed
12 ms, at any valid clock reading `now` (the call time), yields an
envelope with `packet_id = "abc"`, `status = "ok"`,
`processing_time_ms = 12`, and a `received_at` string that parses as a
valid datetime at or after the call time; all four fields are populated by
construction. -/
theorem build_response_correct (now : DateTimeUtc) (h : validb now = true) :
    (buildResponse "abc" now "ok" 12).packet_id = "abc" ∧
    (buildResponse "abc" now "ok" 12).status = "ok" ∧
    (buildResponse "abc" now "ok" 12).processing_time_ms = 12 ∧
    ∃ dt, parseRfc3339 ((buildResponse "abc" now "ok" 12).received_at) = some dt ∧
      dtLe now dt :=
  ⟨rfl, rfl, rfl, now, parse_toRfc3339 now h, Nat.le_refl _⟩

theorem build_response_correct_witness :
    validb ⟨2026, 10, 12, 9, 30, 0⟩ = true ∧
    ((buildResponse "abc" ⟨2026, 10, 12, 9, 30, 0⟩ "ok" 12).packet_id = "abc" ∧
     (buildResponse "abc" ⟨2026, 10, 12, 9, 30, 0⟩ "ok" 12).status = "ok" ∧
     (buildResponse "abc" ⟨2026, 10, 12, 9, 30, 0⟩ "ok" 12).processing_time_ms = 12 ∧
     ∃ dt, parseRfc3339 ((buildResponse "abc" ⟨2026, 10, 12, 9, 30, 0⟩ "ok" 12).received_at)
        = some dt ∧ dtLe ⟨2026, 10, 12, 9, 30, 0⟩ dt) :=
  ⟨by decide, build_response_correct ⟨2026, 10, 12, 9, 30, 0⟩ (by decide)⟩

/-- C6: any interleaving (modelled as any permutation of the atomic
`fetch_add` operations, which subsumes every concurrent schedule of
arbitrarily many callers) of `N` `record` invocations leaves the total
processed counter equal to `N`, each per-variant counter equal to the
number of calls of that kind, and the cumulative time equal to the sum of
the elapsed times — no lost updates. -/
theorem metrics_record_interleaving (calls : List (VariantKind × ℕ)) (sched : List MetricOp)
    (k : VariantKind) (hperm : List.Perm sched (opsOfCalls calls)) :
    (sched.foldl applyOp ProcessingMetrics.new).processed_count = calls.length ∧
    variantCounter k (sched.foldl applyOp ProcessingMetrics.new)
      = (calls.filter (fun c => decide (c.1 = k))).length ∧
    (sched.foldl applyOp ProcessingMetrics.new).total_processing_time
      = (calls.map (fun c => c.2)).sum := by
  refine ⟨?_, ?_, ?_⟩
  · rw [foldl_processed, hperm.countP_eq, countP_opsOfCalls_inc]
    simp [ProcessingMetrics.new]
  · rw [foldl_variant, hperm.countP_eq, countP_opsOfCalls_variant]
    cases k <;> simp [ProcessingMetrics.new, variantCounter]
  · rw [foldl_time, (hperm.map timeOf).sum_eq, sum_opsOfCalls_time]
    simp [ProcessingMetrics.new]

theorem metrics_record_interleaving_witness :
    List.Perm
      [MetricOp.incProcessed, MetricOp.incProcessed, MetricOp.incVariant VariantKind.number,
       MetricOp.incVariant VariantKind.text, MetricOp.addTime 7, MetricOp.addTime 5]
      (opsOfCalls [(VariantKind.text, 5), (VariantKind.number, 7)]) ∧
    (([MetricOp.incProcessed, MetricOp.incProcessed, MetricOp.incVariant VariantKind.number,
       MetricOp.incVariant VariantKind.text, MetricOp.addTime 7,
       MetricOp.addTime 5].foldl applyOp ProcessingMetrics.new).processed_count
      = [(VariantKind.text, 5), (VariantKind.number, 7)].length ∧
     variantCounter VariantKind.text
       ([MetricOp.incProcessed, MetricOp.incProcessed, MetricOp.incVariant VariantKind.number,
         MetricOp.incVariant VariantKind.text, MetricOp.addTime 7,
         MetricOp.addTime 5].foldl applyOp ProcessingMetrics.new)
      = ([(VariantKind.text, 5), (VariantKind.number, 7)].filter
          (fun c => decide (c.1 = VariantKind.text))).length ∧
     ([MetricOp.incProcessed, MetricOp.incProcessed, MetricOp.incVariant VariantKind.number,
       MetricOp.incVariant VariantKind.text, MetricOp.addTime 7,
       MetricOp.addTime 5].foldl applyOp ProcessingMetrics.new).total_processing_time
      = ([(VariantKind.text, 5), (VariantKind.number, 7)].map (fun c => c.2)).sum) :=
  ⟨by decide, metrics_record_interleaving _ _ _ (by decide)⟩

/-- C9: a message whose raw bytes are not JSON (`inbound = none`), whose
JSON does not form a well-formed envelope (`parseFlexiblePacket` fails),
or whose payload matches no known variant tag (`convert_payload` fails),
is dropped: the metrics are unchanged and no response is produced; the
step is a total function, so the failure is never fatal and the loop
continues with the next message. -/
theorem invalid_message_dropped (proc : DataPayload → String) (elapsedMs : ℕ)
    (now : DateTimeUtc) (metrics : ProcessingMetrics) (inbound : Option Json)
    (h : (inbound.bind parseFlexiblePacket).bind (fun p => convert_payload p.payload) = none) :
    handleMessage proc elapsedMs now metrics inbound = (metrics, none) := by
  cases inbound with
  | none => rfl
  | some j =>
    cases hp : parseFlexiblePacket j with
    | none => simp [handleMessage, hp]
    | some p =>
      simp [hp] at h
      cases hc : convert_payload p.payload with
      | none => simp [handleMessage, hp, hc]
      | some dp => simp [hc] at h

theorem invalid_message_dropped_witness :
    ((some (Json.obj []) : Option Json).bind parseFlexiblePacket).bind
      (fun p => convert_payload p.payload) = none ∧
    handleMessage (fun _ => "") 0 ⟨2026, 1, 1, 0, 0, 0⟩ ProcessingMetrics.new
      (some (Json.obj [])) = (ProcessingMetrics.new, none) :=
  ⟨rfl, invalid_message_dropped _ _ _ _ _ rfl⟩

/-- C10: the consumer-loop step preserves the metrics invariant — the
total processed counter equals the sum of the six per-variant counters —
and is monotone in every counter (nothing is ever reset or decreased); the
initial state satisfies the invariant. -/
theorem metrics_invariant_preserved (proc : DataPayload → String) (elapsedMs : ℕ)
    (now : DateTimeUtc) (m : ProcessingMetrics) (inbound : Option Json)
    (hinv : m.processed_count = sumVariantCounts m) :
    (handleMessage proc elapsedMs now m inbound).1.processed_count
      = sumVariantCounts (handleMessage proc elapsedMs now m inbound).1 ∧
    metricsLe m (handleMessage proc elapsedMs now m inbound).1 ∧
    ProcessingMetrics.new.processed_count = sumVariantCounts ProcessingMetrics.new := by
  cases inbound with
  | none => exact ⟨hinv, by simp [handleMessage, metricsLe], rfl⟩
  | some j =>
    cases hp : parseFlexiblePacket j with
    | none =>
      simp only [handleMessage, hp]
      exact ⟨hinv, by simp [metricsLe], rfl⟩
    | some p =>
      cases hc : convert_payload p.payload with
      | none =>
        simp only [handleMessage, hp, hc]
        exact ⟨hinv, by simp [metricsLe], rfl⟩
      | some dp =>
        simp only [sumVariantCounts] at hinv
        cases dp <;>
          simp [handleMessage, hp, hc, update_count, sumVariantCounts, metricsLe,
            ProcessingMetrics.new] <;>
          omega

theorem metrics_invariant_preserved_witness :
    ProcessingMetrics.new.processed_count = sumVariantCounts ProcessingMetrics.new ∧
    ((handleMessage (fun _ => "") 3 ⟨2026, 1, 1, 0, 0, 0⟩ ProcessingMetrics.new
        (some (Json.obj [("id", Json.str "abc"),
          ("payload", Json.obj [("Text", Json.str "hi")])]))).1.processed_count
      = sumVariantCounts (handleMessage (fun _ => "") 3 ⟨2026, 1, 1, 0, 0, 0⟩
          ProcessingMetrics.new (some (Json.obj [("id", Json.str "abc"),
            ("payload", Json.obj [("Text", Json.str "hi")])]))).1 ∧
     metricsLe ProcessingMetrics.new
       (handleMessage (fun _ => "") 3 ⟨2026, 1, 1, 0, 0, 0⟩ ProcessingMetrics.new
         (some (Json.obj [("id", Json.str "abc"),
           ("payload", Json.obj [("Text", Json.str "hi")])]))).1 ∧
     ProcessingMetrics.new.processed_count = sumVariantCounts ProcessingMetrics.new) :=
  ⟨rfl, metrics_invariant_preserved _ _ _ _ _ rfl⟩
